import Mathlib

/-!
Verification of the Keystone repository excerpts: the `decimal` and `select`
field types, and the access-control / authentication behaviour described by
the Access Control API document and exercised by the integration tests.

Decimal values are modelled as rationals (`ℚ`): the `Decimal` runtime type is
arbitrary-precision decimal arithmetic, and every finite decimal literal is a
rational, with `lessThan` / `greaterThan` agreeing with the rational order.
JavaScript's three-valued inputs (`undefined | null | T`) are modelled by
`JsVal`.
-/

/-- A JavaScript value that may be `undefined`, `null`, or a proper value. -/
inductive JsVal (α : Type) where
  | undef
  | null
  | val (a : α)
deriving DecidableEq, Repr

/-! ## The decimal field (src/packages/keystone/src/fields/types/decimal/index.ts) -/

/-- The `validation` option of `DecimalFieldConfig` (lines 18-22), with
`min` and `max` already parsed (`parseDecimalValueOption` accepts exactly the
finite decimal strings, and those denote rationals). -/
structure DecimalValidation where
  min : Option ℚ
  max : Option ℚ
  isRequired : Bool
deriving DecidableEq, Repr

/-- The `max` bound computed by the `decimal` constructor (lines 88-91):
parsed from `validation.max`. -/
def decimalParsedMax (v : DecimalValidation) : Option ℚ := v.max

/-- The `min` bound computed by the `decimal` constructor (lines 92-95):
the source reads `validation.max` here as well, not `validation.min`. -/
def decimalParsedMin (v : DecimalValidation) : Option ℚ := v.max

/-- The validation errors `validateInput` can add (lines 129-146). -/
inductive DecimalValidationError where
  | isRequired
  | mustBeGreaterThanOrEqualTo (bound : ℚ)
  | mustBeLessThanOrEqualTo (bound : ℚ)
deriving DecidableEq, Repr

/-- The `validateInput` hook of the decimal field (lines 129-146): a `null`
value with `validation.isRequired` adds a required error; a non-null value is
compared against the constructor's `min` and `max` bounds. -/
def decimalValidateInput (v : DecimalValidation) (val : JsVal ℚ) :
    List DecimalValidationError :=
  (match val, v.isRequired with
   | .null, true => [.isRequired]
   | _, _ => []) ++
  (match val with
   | .val q =>
     (match decimalParsedMin v with
      | some mn => if q < mn then [.mustBeGreaterThanOrEqualTo mn] else []
      | none => []) ++
     (match decimalParsedMax v with
      | some mx => if mx < q then [.mustBeLessThanOrEqualTo mx] else []
      | none => [])
   | _ => [])

/-- The range checking the claim describes, word for word: the lower bound is
the configured `validation.min` and the upper bound the configured
`validation.max`. -/
def decimalValidateInputSpec (v : DecimalValidation) (val : JsVal ℚ) :
    List DecimalValidationError :=
  (match val, v.isRequired with
   | .null, true => [.isRequired]
   | _, _ => []) ++
  (match val with
   | .val q =>
     (match v.min with
      | some mn => if q < mn then [.mustBeGreaterThanOrEqualTo mn] else []
      | none => []) ++
     (match v.max with
      | some mx => if mx < q then [.mustBeLessThanOrEqualTo mx] else []
      | none => [])
   | _ => [])

/-- The `input.create.resolve` function of the decimal field (lines 160-165):
`undefined` becomes `parsedDefaultValue ?? null`, everything else (an
explicit `null` included) is returned unchanged. -/
def decimalCreateResolve (parsedDefaultValue : Option ℚ) : JsVal ℚ → Option ℚ
  | .undef => parsedDefaultValue
  | .null => none
  | .val a => some a

/-! ## The select field (src/unnamed/part_000) -/

/-- A labelled select option. -/
structure SelOption (α : Type) where
  label : String
  value : α
deriving DecidableEq, Repr

/-- The size of the JS `Set` built from a list of values: the number of
distinct elements. -/
def setSize {α : Type} [DecidableEq α] (l : List α) : Nat := l.dedup.length

/-- The duplicate check of `commonConfig` (part_000 lines 88-93): a `Set` of
the option values is built and its size compared with the number of options. -/
def duplicateValues {α : Type} [DecidableEq α] (values : List α) : Bool :=
  setSize values != values.length

/-- The bounds of a 32 bit signed integer (part_000 lines 64-66). -/
def MAX_INT : ℚ := 2147483647

/-- See `MAX_INT`. -/
def MIN_INT : ℚ := -2147483648

/-- The failing condition of the integer-option range check (part_000 lines
154-158): `!Number.isInteger(value) || value > MAX_INT || value < MIN_INT`.
A rational is a JS integer exactly when its denominator is 1; every JS number
in the int32 range is an exact rational. -/
def intValueBad (q : ℚ) : Bool :=
  !(q.den == 1) || decide (MAX_INT < q) || decide (q < MIN_INT)

/-- The errors the `select` constructor can raise. -/
inductive SelectCtorError where
  | integerOutOfRange
  | duplicateOptions
deriving DecidableEq, Repr

/-- The outcome of running a `select` constructor: a constructed field,
described by its database scalar, or a raised error. -/
inductive SelectCtorResult where
  | ok (dbScalar : String)
  | error (e : SelectCtorError)
deriving DecidableEq, Repr

/-- The `config.type === 'integer'` branch of `select` (part_000 lines
153-179): the 32 bit range check runs first (lines 154-162); then
`commonConfig` runs its duplicate check while the field config is built
(line 168); on success the database field is an `Int` scalar (lines
163-166). -/
def selectIntegerCtor (options : List (SelOption ℚ)) : SelectCtorResult :=
  if options.any (fun o => intValueBad o.value) then .error .integerOutOfRange
  else if duplicateValues (options.map (·.value)) then .error .duplicateOptions
  else .ok "Int"

/-- An option of a string or enum select: either a plain string, whose value
is the string itself (part_000 lines 181-189), or a labelled object. -/
inductive StrOption where
  | plain (s : String)
  | labeled (label : String) (value : String)
deriving DecidableEq, Repr

/-- The value an option contributes after the normalisation of part_000
lines 181-189. -/
def StrOption.value : StrOption → String
  | .plain s => s
  | .labeled _ v => v

/-- The string and enum branches of `select` (part_000 lines 181-233): the
options are normalised, then `commonConfig` runs its duplicate check; the
database field is an enum for type 'enum' and otherwise a `String` scalar. -/
def selectStringCtor (isEnum : Bool) (options : List StrOption) :
    SelectCtorResult :=
  if duplicateValues (options.map StrOption.value) then .error .duplicateOptions
  else .ok (if isEnum then "enum" else "String")

/-- The nullability-related part of a select field config (part_000 lines
47-62). `none` stands for an absent option. -/
structure SelectNonNullConfig where
  isNullable : Option Bool
  createIsNonNull : Option Bool
  readIsNonNull : Option Bool
deriving DecidableEq, Repr

/-- The create-argument builder of `select` (part_000 lines 145-151): the
argument type is wrapped in `nonNull` when `config.isNullable === false`
and `config.graphql?.read?.isNonNull === true`. -/
def selectCreateArgIsNonNull (c : SelectNonNullConfig) : Bool :=
  c.isNullable == some false && c.readIsNonNull == some true

/-- The `defaultValue` attached to the create argument (part_000 line 149):
attached exactly when the argument is non-null. -/
def selectCreateArgDefault {α : Type} (c : SelectNonNullConfig)
    (defaultValue : Option α) : Option α :=
  if selectCreateArgIsNonNull c then defaultValue else none

/-- `resolveCreate` of `select` (part_000 lines 133-138): `undefined` becomes
`defaultValue ?? null`, everything else is returned unchanged. -/
def selectResolveCreate {α : Type} (defaultValue : Option α) :
    JsVal α → Option α
  | .undef => defaultValue
  | .null => none
  | .val a => some a

/-- The JS `Set` of a value list has as many elements as the list exactly when
the list has no duplicate. -/
theorem setSize_eq_length_iff {α : Type} [DecidableEq α] (l : List α) :
    setSize l = l.length ↔ l.Nodup := by
  constructor
  · intro h
    have hsub : l.dedup.Sublist l := List.dedup_sublist l
    have : l.dedup = l := hsub.eq_of_length h
    rw [← this]
    exact l.nodup_dedup
  · intro h
    simpa [setSize] using congrArg List.length (List.dedup_eq_self.mpr h)

/-- The duplicate check fires exactly on lists with a repeated value. -/
theorem duplicateValues_iff {α : Type} [DecidableEq α] (l : List α) :
    duplicateValues l = true ↔ ¬ l.Nodup := by
  rw [← setSize_eq_length_iff]
  simp [duplicateValues]

/-- The integer range check fires exactly on a value that is not an integer
or lies outside the 32 bit signed range. -/
theorem intValueBad_iff (q : ℚ) :
    intValueBad q = true ↔ ¬(q.den = 1 ∧ q ≤ MAX_INT ∧ MIN_INT ≤ q) := by
  simp only [intValueBad, Bool.or_eq_true, Bool.not_eq_true', beq_eq_false_iff_ne,
    ne_eq, decide_eq_true_eq, not_and_or, not_le]
  tauto

/-- C1: the decimal field is claimed to range check non-null values against the
configured `validation.min` and `validation.max`. The code instead parses both
bounds from `validation.max` (lines 92-95 read `validation.max` for `min`): a
field configured with only `validation.min = 5` performs no range check at all
on the value `3`, although the claim requires a
'must be greater than or equal to' error there; and a field configured with
only `validation.max = 10` adds a spurious
'must be greater than or equal to 10' error on the in-range value `3`. -/
theorem C1_decimal_min_parsed_from_max :
    decimalValidateInput ⟨some 5, none, false⟩ (.val 3) = [] ∧
    decimalValidateInputSpec ⟨some 5, none, false⟩ (.val 3) =
      [.mustBeGreaterThanOrEqualTo 5] ∧
    decimalValidateInput ⟨none, some 10, false⟩ (.val 3) =
      [.mustBeGreaterThanOrEqualTo 10] ∧
    decimalValidateInputSpec ⟨none, some 10, false⟩ (.val 3) = [] := by
  refine ⟨rfl, ?_, ?_, ?_⟩ <;>
    simp [decimalValidateInput, decimalValidateInputSpec,
      decimalParsedMin, decimalParsedMax] <;> norm_num

/-- C5, counterexample: a select field of type 'integer' whose two options
share the value 5000000000 has duplicate options, yet the constructor does not
raise the 'has duplicate options' error: the 32 bit range check runs first and
raises 'outside the range of a 32 bit signed integer' instead. -/
theorem C5_counterexample :
    selectIntegerCtor [⟨"a", 5000000000⟩, ⟨"b", 5000000000⟩] =
      .error .integerOutOfRange ∧
    duplicateValues
      (([⟨"a", 5000000000⟩, ⟨"b", 5000000000⟩] : List (SelOption ℚ)).map
        (·.value)) = true ∧
    selectIntegerCtor [⟨"a", 5000000000⟩, ⟨"b", 5000000000⟩] ≠
      .error .duplicateOptions := by
  refine ⟨by decide, by decide, by decide⟩

/-- C5 (amended): the select constructor raises the 'has duplicate options'
error exactly when two entries of the options list share the same value,
except that for type 'integer' the 32 bit range check runs first and preempts
it; when all option values are distinct the error is never raised. -/
theorem C5_select_duplicate_options (isEnum : Bool) (strOpts : List StrOption)
    (intOpts : List (SelOption ℚ)) :
    (selectStringCtor isEnum strOpts = .error .duplicateOptions ↔
      ¬ (strOpts.map StrOption.value).Nodup) ∧
    (selectIntegerCtor intOpts = .error .duplicateOptions ↔
      ((∀ o ∈ intOpts, intValueBad o.value = false) ∧
        ¬ (intOpts.map (·.value)).Nodup)) := by
  constructor
  · unfold selectStringCtor
    split
    case isTrue h =>
      simpa using (duplicateValues_iff _).mp h
    case isFalse h =>
      have hnodup : (strOpts.map StrOption.value).Nodup := by
        by_contra hcon
        exact h ((duplicateValues_iff _).mpr hcon)
      simp [hnodup]
  · unfold selectIntegerCtor
    split
    case isTrue h =>
      refine iff_of_false (by simp) ?_
      rintro ⟨hall, -⟩
      obtain ⟨o, ho, hbad⟩ := List.any_eq_true.mp h
      rw [hall o ho] at hbad
      exact Bool.false_ne_true hbad
    case isFalse h =>
      have hall : ∀ o ∈ intOpts, intValueBad o.value = false := by
        intro o ho
        by_contra hcon
        exact h (List.any_eq_true.mpr ⟨o, ho, by simpa using hcon⟩)
      split
      case isTrue h2 =>
        exact iff_of_true rfl ⟨hall, (duplicateValues_iff _).mp h2⟩
      case isFalse h2 =>
        have hnodup : (intOpts.map (·.value)).Nodup := by
          by_contra hcon
          exact h2 ((duplicateValues_iff _).mpr hcon)
        simp [hnodup]

/-- C8, counterexample: a select field of type 'integer' whose option values
are all integers inside the 32 bit signed range does not raise the range
error, yet is not constructed with an `Int` scalar database field when two
options share a value: the constructor raises the duplicate-options error. -/
theorem C8_counterexample :
    selectIntegerCtor [⟨"a", 1⟩, ⟨"b", 1⟩] = .error .duplicateOptions ∧
    (∀ o ∈ ([⟨"a", 1⟩, ⟨"b", 1⟩] : List (SelOption ℚ)),
      intValueBad o.value = false) ∧
    selectIntegerCtor [⟨"a", 1⟩, ⟨"b", 1⟩] ≠ .ok "Int" := by
  refine ⟨by decide, by decide, by decide⟩

/-- C8 (amended): for a select field of type 'integer' the constructor raises
the 'outside the range of a 32 bit signed integer' error exactly when some
option value is not an integer, is greater than 2147483647, or is less than
-2147483648; otherwise, provided the option values are also distinct, the
field is constructed with an `Int` scalar database field. -/
theorem C8_select_integer_range (opts : List (SelOption ℚ)) :
    (selectIntegerCtor opts = .error .integerOutOfRange ↔
      ∃ o ∈ opts, ¬(o.value.den = 1 ∧ o.value ≤ MAX_INT ∧ MIN_INT ≤ o.value)) ∧
    ((∀ o ∈ opts, o.value.den = 1 ∧ o.value ≤ MAX_INT ∧ MIN_INT ≤ o.value) →
      (opts.map (·.value)).Nodup → selectIntegerCtor opts = .ok "Int") := by
  constructor
  · unfold selectIntegerCtor
    split
    case isTrue h =>
      obtain ⟨o, ho, hbad⟩ := List.any_eq_true.mp h
      exact iff_of_true rfl ⟨o, ho, (intValueBad_iff o.value).mp hbad⟩
    case isFalse h =>
      refine iff_of_false ?_ ?_
      · split <;> simp
      · rintro ⟨o, ho, hbad⟩
        exact h (List.any_eq_true.mpr
          ⟨o, ho, (intValueBad_iff o.value).mpr hbad⟩)
  · intro hgood hnodup
    unfold selectIntegerCtor
    have h1 : opts.any (fun o => intValueBad o.value) = false := by
      rw [List.any_eq_false]
      intro o ho
      simp [intValueBad_iff, hgood o ho]
    have h2 : duplicateValues (opts.map (·.value)) = false := by
      by_contra hcon
      exact ((duplicateValues_iff _).mp (by simpa using hcon)) hnodup
    simp [h1, h2]

/-- C9: the create input argument of a select field is non-null exactly when
`isNullable` is `false` and `graphql.read.isNonNull` is `true`; changing
`graphql.create.isNonNull` changes neither whether the argument is non-null
nor whether its `defaultValue` is attached (which happens exactly when the
argument is non-null). -/
theorem C9_select_create_nonNull (c : SelectNonNullConfig) (b : Option Bool)
    (α : Type) (d : Option α) :
    (selectCreateArgIsNonNull c = true ↔
      (c.isNullable = some false ∧ c.readIsNonNull = some true)) ∧
    selectCreateArgIsNonNull { c with createIsNonNull := b } =
      selectCreateArgIsNonNull c ∧
    selectCreateArgDefault { c with createIsNonNull := b } d =
      selectCreateArgDefault c d ∧
    selectCreateArgDefault c d =
      (if selectCreateArgIsNonNull c then d else none) := by
  refine ⟨?_, rfl, rfl, rfl⟩
  simp [selectCreateArgIsNonNull]

/-- C10: the create-input resolvers of the select and decimal fields default
uniformly: `undefined` is mapped to the configured `defaultValue` (`null` when
none is configured, which `Option` renders as `none`), and every other input,
an explicit `null` included, is mapped to itself. -/
theorem C10_create_resolve_uniform (α : Type) (d : Option α) (a : α)
    (dq : Option ℚ) (q : ℚ) :
    selectResolveCreate d .undef = d ∧
    selectResolveCreate d .null = none ∧
    selectResolveCreate d (.val a) = some a ∧
    decimalCreateResolve dq .undef = dq ∧
    decimalCreateResolve dq .null = none ∧
    decimalCreateResolve dq (.val q) = some q :=
  ⟨rfl, rfl, rfl, rfl, rfl, rfl⟩

/-! ## The access-control resolution pipeline (modelled)

The generated CRUD resolvers and their access-control wrapper live in
`@keystone-next/keystone`'s core, which is not among the repository files;
only the Access Control API document (src/unnamed/part_001) and the
integration tests (src/tests/api-tests/access-control/
mutations-list-operation.test.ts) are. The definitions below are therefore
modelled from those spec sources. -/

/-- Modelled from the spec: an operation of the generated CRUD API
(part_001, Function Arguments table). The resolver code is missing from the
repository files. -/
inductive Operation where
  | query
  | create
  | update
  | delete
deriving DecidableEq, Repr

/-- Modelled from the spec: the operation's name as it appears in error
tags. The resolver code is missing from the repository files. -/
def Operation.opName : Operation → String
  | .query => "query"
  | .create => "create"
  | .update => "update"
  | .delete => "delete"

/-- Modelled from the spec: the value a list-level operation access-control
function returned — a boolean, as part_001 requires, or a filter object
(the invalid return the tests exercise). The access-control resolution code
is missing from the repository files. -/
inductive AccessRet where
  | boolean (b : Bool)
  | filterObject
deriving DecidableEq, Repr

/-- Modelled from the spec: the `typeof` of the returned value, which the
access-return error reports. -/
def AccessRet.returnedType : AccessRet → String
  | .boolean _ => "boolean"
  | .filterObject => "object"

/-- Modelled from the spec: whether the operation-level check passed — only
the boolean `true` allows the operation. -/
def AccessRet.passes : AccessRet → Bool
  | .boolean true => true
  | _ => false

/-- Modelled from the spec: the kinds of GraphQL errors the pipeline shapes —
an access denied error, or an access-return error carrying a tag and the
typeof of the invalid returned value (as `expectAccessReturnError` checks in
the tests). -/
inductive GqlErrorKind where
  | accessDenied
  | accessReturn (tag : String) (returned : String)
deriving DecidableEq, Repr

/-- Modelled from the spec: a GraphQL error at a response path. -/
structure GqlError where
  path : List String
  kind : GqlErrorKind
deriving DecidableEq, Repr

/-- An item of a list with a single `name` field, as in the tests' `BadAccess`
list. -/
structure Item where
  id : Nat
  name : String
deriving DecidableEq, Repr

/-- The database state: the stored items of the list. -/
abbrev DB := List Item

/-- Modelled from the spec: the tag of an access-return error,
`<ListKey>.access.operation.<operation>` (as the tests check, e.g.
`BadAccess.access.operation.query`). -/
def accessTag (listKey : String) (op : Operation) : String :=
  listKey ++ ".access.operation." ++ op.opName

/-- Modelled from the spec: the access-return error produced when an
operation access-control function returns an invalid (non-boolean) value. -/
def accessReturnError (listKey : String) (op : Operation) (fieldName : String)
    (ret : AccessRet) : GqlError :=
  ⟨[fieldName], .accessReturn (accessTag listKey op) ret.returnedType⟩

/-- Modelled from the spec: the access denied error attached to a denied
mutation's response path. -/
def accessDeniedError (fieldName : String) : GqlError :=
  ⟨[fieldName], .accessDenied⟩

/-- Modelled from the spec: the generated many-items query resolver.
An invalid operation access return yields `null` data and an access-return
error; a denied operation or denied items yield no error — denied items are
treated as if they did not exist (part_001 lines 41-52). -/
def findMany (listKey fieldName : String) (acc : AccessRet)
    (denied : Item → Bool) (db : DB) : Option (List Item) × List GqlError :=
  match acc with
  | .filterObject =>
    (none, [accessReturnError listKey .query fieldName .filterObject])
  | .boolean false => (some [], [])
  | .boolean true => (some (db.filter fun it => !denied it), [])

/-- Modelled from the spec: the generated single-item query resolver with
per-item (filter-level) denial: a denied item returns `null` with no errors
(part_001 lines 49-52). -/
def findOne (denied : Item → Bool) (db : DB) (i : Nat) :
    Option Item × List GqlError :=
  match db.find? (fun it => it.id == i && !denied it) with
  | none => (none, [])
  | some it => (some it, [])

/-- Modelled from the spec: the generated count query resolver: it counts
only the items for which access is not denied, with no errors (part_001
line 52). -/
def countQuery (denied : Item → Bool) (db : DB) : Nat × List GqlError :=
  ((db.filter fun it => !denied it).length, [])

/-- Modelled from the spec: the generated `createOne` mutation resolver under
operation-level and item-level access control; it returns the new database
state, the returned data and the errors. -/
def createOne (listKey fieldName : String) (acc : AccessRet)
    (itemDenied : Item → Bool) (db : DB) (newItem : Item) :
    DB × Option Item × List GqlError :=
  match acc with
  | .boolean false => (db, none, [accessDeniedError fieldName])
  | .filterObject =>
    (db, none, [accessReturnError listKey .create fieldName .filterObject])
  | .boolean true =>
    if itemDenied newItem then (db, none, [accessDeniedError fieldName])
    else (db ++ [newItem], some newItem, [])

/-- Modelled from the spec: the generated `updateOne` mutation resolver; at
filter level the access filter is combined with the unique identifier, and
access is denied when no item matches the combined filter (part_001
line 88). -/
def updateOne (listKey fieldName : String) (acc : AccessRet)
    (denied : Item → Bool) (db : DB) (i : Nat) (newName : String) :
    DB × Option Item × List GqlError :=
  match acc with
  | .boolean false => (db, none, [accessDeniedError fieldName])
  | .filterObject =>
    (db, none, [accessReturnError listKey .update fieldName .filterObject])
  | .boolean true =>
    match db.find? (fun it => it.id == i && !denied it) with
    | none => (db, none, [accessDeniedError fieldName])
    | some it =>
      (db.map fun x => if x.id == i then { x with name := newName } else x,
       some { it with name := newName }, [])

/-- Modelled from the spec: the generated `deleteOne` mutation resolver. -/
def deleteOne (listKey fieldName : String) (acc : AccessRet)
    (denied : Item → Bool) (db : DB) (i : Nat) :
    DB × Option Item × List GqlError :=
  match acc with
  | .boolean false => (db, none, [accessDeniedError fieldName])
  | .filterObject =>
    (db, none, [accessReturnError listKey .delete fieldName .filterObject])
  | .boolean true =>
    match db.find? (fun it => it.id == i && !denied it) with
    | none => (db, none, [accessDeniedError fieldName])
    | some it => (db.eraseP (fun x => x.id == i), some it, [])

/-- Modelled from the spec: the generated `deleteMany` mutation resolver —
a multi mutation returns a data array with `null` for each denied item and
one error response per `null` item (part_001 lines 47-48). -/
def deleteMany (fieldName : String) (denied : Item → Bool) :
    DB → List Nat → DB × List (Option Item) × List GqlError
  | db, [] => (db, [], [])
  | db, i :: is =>
    match db.find? (fun it => it.id == i && !denied it) with
    | none =>
      let r := deleteMany fieldName denied db is
      (r.1, none :: r.2.1, accessDeniedError fieldName :: r.2.2)
    | some it =>
      let r := deleteMany fieldName denied (db.eraseP (fun x => x.id == i)) is
      (r.1, some it :: r.2.1, r.2.2)

/-- A failed item lookup means every stored item with the requested id is
denied (or no such item exists). -/
theorem find_none_iff (denied : Item → Bool) (db : DB) (i : Nat) :
    db.find? (fun it => it.id == i && !denied it) = none ↔
      ∀ it ∈ db, it.id = i → denied it = true := by
  rw [List.find?_eq_none]
  constructor
  · intro h it hit hid
    have := h it hit
    simp only [Bool.and_eq_true, beq_iff_eq, Bool.not_eq_true', not_and] at this
    cases hd : denied it with
    | true => rfl
    | false => exact absurd hd (this hid)
  · intro h it hit
    simp only [Bool.and_eq_true, beq_iff_eq, Bool.not_eq_true', not_and]
    intro hid
    simp [h it hit hid]

/-- A successful item lookup returns a stored, matching, non-denied item. -/
theorem find_some_props {denied : Item → Bool} {db : DB} {i : Nat} {it : Item}
    (h : db.find? (fun x => x.id == i && !denied x) = some it) :
    it ∈ db ∧ it.id = i ∧ denied it = false := by
  have hmem := List.mem_of_find?_eq_some h
  have hp := List.find?_some h
  simp only [Bool.and_eq_true, beq_iff_eq, Bool.not_eq_true'] at hp
  exact ⟨hmem, hp.1, hp.2⟩

/-- The data array of a multi mutation has one entry per requested id, its
error list has exactly one error per `null` entry, and every error is an
access denied error. -/
theorem deleteMany_shape (fieldName : String) (denied : Item → Bool) :
    ∀ (ids : List Nat) (db : DB),
      (deleteMany fieldName denied db ids).2.1.length = ids.length ∧
      (deleteMany fieldName denied db ids).2.2.length =
        (deleteMany fieldName denied db ids).2.1.count none ∧
      ∀ e ∈ (deleteMany fieldName denied db ids).2.2,
        e = accessDeniedError fieldName := by
  intro ids
  induction ids with
  | nil =>
    intro db
    simp [deleteMany]
  | cons i is ih =>
    intro db
    cases hfind : db.find? (fun it => it.id == i && !denied it) with
    | none =>
      obtain ⟨h1, h2, h3⟩ := ih db
      simp only [deleteMany, hfind]
      refine ⟨by simpa using h1, ?_, ?_⟩
      · simp [List.count_cons, h2]
      · intro e he
        rcases List.mem_cons.mp he with rfl | he'
        · rfl
        · exact h3 e he'
    | some it =>
      obtain ⟨h1, h2, h3⟩ := ih (db.eraseP (fun x => x.id == i))
      simp only [deleteMany, hfind]
      exact ⟨by simpa using h1, by simpa [List.count_cons] using h2, h3⟩

/-- C2: access-denied outcomes are per-item for mutations and per-list for
queries. Queries never produce an access denied error: a single-item query on
a denied (or absent) item returns `null` with no errors, a many-items query
silently filters out denied items, and a count query counts exactly the items
access is not denied for. A single mutation returns `null` data with one
access denied error exactly when its target is denied, and a multi mutation
returns a data array with `null` per denied item and one access denied error
per `null` entry. -/
theorem C2_access_denied_shaping (listKey fieldName newName : String)
    (denied : Item → Bool) (db : DB) (i : Nat) (ids : List Nat)
    (newItem : Item) :
    (findOne denied db i).2 = [] ∧
    findMany listKey fieldName (.boolean true) denied db =
      (some (db.filter fun it => !denied it), []) ∧
    countQuery denied db = ((db.filter fun it => !denied it).length, []) ∧
    ((findOne denied db i).1 = none ↔
      ∀ it ∈ db, it.id = i → denied it = true) ∧
    ((deleteOne listKey fieldName (.boolean true) denied db i).2 =
        (none, [accessDeniedError fieldName]) ↔
      ∀ it ∈ db, it.id = i → denied it = true) ∧
    ((updateOne listKey fieldName (.boolean true) denied db i newName).2 =
        (none, [accessDeniedError fieldName]) ↔
      ∀ it ∈ db, it.id = i → denied it = true) ∧
    (denied newItem = true →
      (createOne listKey fieldName (.boolean true) denied db newItem).2 =
        (none, [accessDeniedError fieldName])) ∧
    (deleteMany fieldName denied db ids).2.1.length = ids.length ∧
    (deleteMany fieldName denied db ids).2.2.length =
      (deleteMany fieldName denied db ids).2.1.count none ∧
    ∀ e ∈ (deleteMany fieldName denied db ids).2.2,
      e = accessDeniedError fieldName := by
  obtain ⟨hm1, hm2, hm3⟩ := deleteMany_shape fieldName denied ids db
  refine ⟨?_, rfl, rfl, ?_, ?_, ?_, ?_, hm1, hm2, hm3⟩
  · cases h : db.find? (fun it => it.id == i && !denied it) <;>
      simp [findOne, h]
  · cases h : db.find? (fun it => it.id == i && !denied it) with
    | none =>
      exact iff_of_true (by simp [findOne, h])
        ((find_none_iff denied db i).mp h)
    | some it =>
      obtain ⟨hmem, hid, hden⟩ := find_some_props h
      refine iff_of_false (by simp [findOne, h]) ?_
      intro hall
      rw [hall it hmem hid] at hden
      exact Bool.noConfusion hden
  · cases h : db.find? (fun it => it.id == i && !denied it) with
    | none =>
      exact iff_of_true (by simp [deleteOne, h])
        ((find_none_iff denied db i).mp h)
    | some it =>
      obtain ⟨hmem, hid, hden⟩ := find_some_props h
      refine iff_of_false (by simp [deleteOne, h]) ?_
      intro hall
      rw [hall it hmem hid] at hden
      exact Bool.noConfusion hden
  · cases h : db.find? (fun it => it.id == i && !denied it) with
    | none =>
      exact iff_of_true (by simp [updateOne, h])
        ((find_none_iff denied db i).mp h)
    | some it =>
      obtain ⟨hmem, hid, hden⟩ := find_some_props h
      refine iff_of_false (by simp [updateOne, h]) ?_
      intro hall
      rw [hall it hmem hid] at hden
      exact Bool.noConfusion hden
  · intro hden
    simp [createOne, hden]

/-- C3: mutations aborted by list-level access control are atomic. Whenever
the operation access check does not pass — the function returned `false` or
an invalid (non-boolean) value — the database state after `createOne`,
`updateOne` or `deleteOne` equals the state before: nothing is stored, the
target's fields keep their prior values, and the target stays present. -/
theorem C3_aborted_mutations_atomic (listKey fieldName newName : String)
    (acc : AccessRet) (denied : Item → Bool) (db : DB) (newItem : Item)
    (i : Nat) (h : acc.passes = false) :
    (createOne listKey fieldName acc denied db newItem).1 = db ∧
    (updateOne listKey fieldName acc denied db i newName).1 = db ∧
    (deleteOne listKey fieldName acc denied db i).1 = db := by
  cases acc with
  | boolean b =>
    cases b with
    | false => exact ⟨rfl, rfl, rfl⟩
    | true => exact absurd h (by simp [AccessRet.passes])
  | filterObject => exact ⟨rfl, rfl, rfl⟩

/-- C3, witness: the atomicity theorem applied to a concrete database and an
access-control function that returned a filter object. -/
theorem C3_aborted_mutations_atomic_witness :
    AccessRet.filterObject.passes = false ∧
    ((createOne "BadAccess" "createBadAccess" .filterObject (fun _ => false)
        [⟨1, "good"⟩] ⟨2, "better"⟩).1 = [⟨1, "good"⟩] ∧
      (updateOne "BadAccess" "createBadAccess" .filterObject (fun _ => false)
        [⟨1, "good"⟩] 1 "better").1 = [⟨1, "good"⟩] ∧
      (deleteOne "BadAccess" "createBadAccess" .filterObject (fun _ => false)
        [⟨1, "good"⟩] 1).1 = [⟨1, "good"⟩]) :=
  ⟨rfl, C3_aborted_mutations_atomic "BadAccess" "createBadAccess" "better"
    .filterObject (fun _ => false) [⟨1, "good"⟩] ⟨2, "better"⟩ 1 rfl⟩

/-- The access-return tag written out for each operation. -/
theorem accessTag_eq (listKey : String) :
    accessTag listKey .query = listKey ++ ".access.operation.query" ∧
    accessTag listKey .create = listKey ++ ".access.operation.create" ∧
    accessTag listKey .update = listKey ++ ".access.operation.update" ∧
    accessTag listKey .delete = listKey ++ ".access.operation.delete" := by
  refine ⟨?_, ?_, ?_, ?_⟩ <;> (unfold accessTag; rw [String.append_assoc]; rfl)

/-- C4: when the operation-level access-control function returns a
non-boolean value (a filter object, of type 'object'), each of the four
operations responds with `null` data at the operation's path together with
one access-return error whose tag is `<ListKey>.access.operation.<operation>`
and whose reported type is 'object'. -/
theorem C4_invalid_access_return_shaping (listKey fieldName newName : String)
    (denied : Item → Bool) (db : DB) (newItem : Item) (i : Nat) :
    findMany listKey fieldName .filterObject denied db =
      (none, [⟨[fieldName],
        .accessReturn (listKey ++ ".access.operation.query") "object"⟩]) ∧
    (createOne listKey fieldName .filterObject denied db newItem).2 =
      (none, [⟨[fieldName],
        .accessReturn (listKey ++ ".access.operation.create") "object"⟩]) ∧
    (updateOne listKey fieldName .filterObject denied db i newName).2 =
      (none, [⟨[fieldName],
        .accessReturn (listKey ++ ".access.operation.update") "object"⟩]) ∧
    (deleteOne listKey fieldName .filterObject denied db i).2 =
      (none, [⟨[fieldName],
        .accessReturn (listKey ++ ".access.operation.delete") "object"⟩]) := by
  obtain ⟨t1, t2, t3, t4⟩ := accessTag_eq listKey
  refine ⟨?_, ?_, ?_, ?_⟩ <;>
    simp [findMany, createOne, updateOne, deleteOne, accessReturnError,
      AccessRet.returnedType, t1, t2, t3, t4]

/-! ## Authentication (modelled)

The auth package (`@keystone-next/auth`, providing
`authenticateUserWithPassword`, `redeemUserMagicAuthToken` and
`redeemUserPasswordResetToken`) is not among the repository files; only the
auth integration tests are. The definitions below are modelled from those
tests. -/

/-- Modelled from the spec: a stored user of the auth tests' `User` list,
with the password-auth secret and the magic-auth and password-reset token
state the tests read back (`magicAuthToken`, `magicAuthIssuedAt`,
`magicAuthRedeemedAt`, and the `passwordReset` counterparts). Timestamps are
minutes; a boolean stands for a set `RedeemedAt`. -/
structure AuthUser where
  email : String
  password : String
  magicToken : Option String
  magicIssuedAt : Nat
  magicRedeemed : Bool
  resetToken : Option String
  resetIssuedAt : Nat
  resetRedeemed : Bool
deriving DecidableEq, Repr

/-- The users stored in the database. -/
abbrev AuthDB := List AuthUser

/-- Modelled from the spec: the union result of
`authenticateUserWithPassword`. -/
inductive PasswordAuthResult where
  | success (sessionEmail : String)
  | failure (message : String)
deriving DecidableEq, Repr

/-- Modelled from the spec: the observable response of the password-auth
mutation — its data, its GraphQL error messages, and whether a session
cookie header was set. -/
structure PasswordAuthResponse where
  result : PasswordAuthResult
  gqlErrors : List String
  sessionCookieSet : Bool
deriving DecidableEq, Repr

/-- Modelled from the spec: `authenticateUserWithPassword`, as the tests
observe it — a missing identity and a wrong password for an existing
identity both produce the same `Authentication failed.` response with no
errors and no session cookie; a match authenticates and sets the cookie. -/
def authenticateUserWithPassword (db : AuthDB) (email pw : String) :
    PasswordAuthResponse :=
  match db.find? (fun u => u.email == email) with
  | none => ⟨.failure "Authentication failed.", [], false⟩
  | some u =>
    if u.password == pw then ⟨.success u.email, [], true⟩
    else ⟨.failure "Authentication failed.", [], false⟩

/-- Modelled from the spec: the union result of a token redemption. -/
inductive RedeemResult where
  | success (sessionEmail : String)
  | failure (code : String) (message : String)
deriving DecidableEq, Repr

/-- Marks the magic-auth token redeemed. -/
def setMagicRedeemed (u : AuthUser) : AuthUser := { u with magicRedeemed := true }

/-- Marks the password-reset token redeemed and stores the new password. -/
def setResetRedeemed (newPw : String) (u : AuthUser) : AuthUser :=
  { u with resetRedeemed := true, password := newPw }

/-- Modelled from the spec: `redeemUserMagicAuthToken`, as the tests observe
it — a missing identity or a wrong token produce the generic `FAILURE`
response; a matching token that was already redeemed produces
`TOKEN_REDEEMED`; an expired one `TOKEN_EXPIRED`; otherwise the redemption
succeeds and marks the token redeemed. -/
def redeemMagicAuthToken (validForMins now : Nat) (db : AuthDB)
    (email token : String) : AuthDB × RedeemResult :=
  match db.find? (fun u => u.email == email) with
  | none => (db, .failure "FAILURE" "Auth token redemption failed.")
  | some u =>
    if u.magicToken == some token then
      if u.magicRedeemed then
        (db, .failure "TOKEN_REDEEMED"
          "Auth tokens are single use and the auth token provided has already been redeemed.")
      else if validForMins < now - u.magicIssuedAt then
        (db, .failure "TOKEN_EXPIRED" "The auth token provided has expired.")
      else
        (db.map fun v => if v.email == email then setMagicRedeemed v else v,
         .success u.email)
    else (db, .failure "FAILURE" "Auth token redemption failed.")

/-- Modelled from the spec: `redeemUserPasswordResetToken`, as the tests
observe it — like the magic-auth redemption, and a success additionally
stores the new password. -/
def redeemPasswordResetToken (validForMins now : Nat) (db : AuthDB)
    (email token newPw : String) : AuthDB × RedeemResult :=
  match db.find? (fun u => u.email == email) with
  | none => (db, .failure "FAILURE" "Auth token redemption failed.")
  | some u =>
    if u.resetToken == some token then
      if u.resetRedeemed then
        (db, .failure "TOKEN_REDEEMED"
          "Auth tokens are single use and the auth token provided has already been redeemed.")
      else if validForMins < now - u.resetIssuedAt then
        (db, .failure "TOKEN_EXPIRED" "The auth token provided has expired.")
      else
        (db.map fun v => if v.email == email then setResetRedeemed newPw v else v,
         .success u.email)
    else (db, .failure "FAILURE" "Auth token redemption failed.")

/-- Looking a user up by email commutes with an update that preserves
emails. -/
theorem find?_email_map (db : AuthDB) (email : String)
    (f : AuthUser → AuthUser) (hf : ∀ u, (f u).email = u.email) :
    (db.map fun v => if v.email == email then f v else v).find?
        (fun v => v.email == email) =
      (db.find? (fun v => v.email == email)).map
        (fun v => if v.email == email then f v else v) := by
  rw [List.find?_map]
  have hp : ((fun v => v.email == email) ∘
        fun v => if v.email == email then f v else v) =
      fun v => v.email == email := by
    funext v
    by_cases h : v.email = email <;> simp [Function.comp, h, hf]
  rw [hp]

/-- C6: authentication failures are indistinguishable across causes. When no
stored user matches both the identity and the password — whether the identity
does not exist or the password is wrong for an existing identity — the
password-auth mutation returns the identical failure value
`Authentication failed.` with no GraphQL errors and no session cookie; and
when no stored user matches both the identity and the magic-auth token, the
redemption mutation returns the identical
`FAILURE / Auth token redemption failed.` value and leaves the database
unchanged. -/
theorem C6_auth_failures_indistinguishable (db : AuthDB)
    (email pw token : String) (validForMins now : Nat)
    (hpw : ∀ u ∈ db, u.email = email → u.password ≠ pw)
    (htok : ∀ u ∈ db, u.email = email → u.magicToken ≠ some token) :
    authenticateUserWithPassword db email pw =
      ⟨.failure "Authentication failed.", [], false⟩ ∧
    redeemMagicAuthToken validForMins now db email token =
      (db, .failure "FAILURE" "Auth token redemption failed.") := by
  constructor
  · unfold authenticateUserWithPassword
    cases hfind : db.find? (fun u => u.email == email) with
    | none => rfl
    | some u =>
      have hmem := List.mem_of_find?_eq_some hfind
      have hp := List.find?_some hfind
      simp only [beq_iff_eq] at hp
      simp [hpw u hmem hp]
  · unfold redeemMagicAuthToken
    cases hfind : db.find? (fun u => u.email == email) with
    | none => rfl
    | some u =>
      have hmem := List.mem_of_find?_eq_some hfind
      have hp := List.find?_some hfind
      simp only [beq_iff_eq] at hp
      simp [htok u hmem hp]

/-- C6, witness: the indistinguishability theorem applied to a database with
one user, at a wrong password and a wrong token for that existing user. -/
theorem C6_auth_failures_witness :
    (∀ u ∈ ([⟨"boris@keystone.com", "correctbattery", some "tok", 0, false,
        none, 0, false⟩] : AuthDB),
      u.email = "boris@keystone.com" → u.password ≠ "incorrectbattery") ∧
    (∀ u ∈ ([⟨"boris@keystone.com", "correctbattery", some "tok", 0, false,
        none, 0, false⟩] : AuthDB),
      u.email = "boris@keystone.com" → u.magicToken ≠ some "BAD TOKEN") ∧
    authenticateUserWithPassword
        [⟨"boris@keystone.com", "correctbattery", some "tok", 0, false,
          none, 0, false⟩] "boris@keystone.com" "incorrectbattery" =
      ⟨.failure "Authentication failed.", [], false⟩ ∧
    redeemMagicAuthToken 60 0
        [⟨"boris@keystone.com", "correctbattery", some "tok", 0, false,
          none, 0, false⟩] "boris@keystone.com" "BAD TOKEN" =
      ([⟨"boris@keystone.com", "correctbattery", some "tok", 0, false,
          none, 0, false⟩], .failure "FAILURE" "Auth token redemption failed.") := by
  have h := C6_auth_failures_indistinguishable
    [⟨"boris@keystone.com", "correctbattery", some "tok", 0, false,
      none, 0, false⟩] "boris@keystone.com" "incorrectbattery" "BAD TOKEN"
    60 0 (by decide) (by decide)
  exact ⟨by decide, by decide, h.1, h.2⟩

/-- C7: auth tokens are single use. After a magic-auth token or a
password-reset token has been successfully redeemed, redeeming the same token
again returns the `TOKEN_REDEEMED` failure with its fixed message, and leaves
the database unchanged: it neither authenticates nor changes the password
again. -/
theorem C7_auth_tokens_single_use (validForMins n1 n2 m1 m2 : Nat)
    (dbA dbB dbA2 dbB2 : AuthDB)
    (emailA emailB tokenA tokenB newPw newPw2 eA eB : String)
    (hA : redeemMagicAuthToken validForMins n1 dbA emailA tokenA =
      (dbA2, .success eA))
    (hB : redeemPasswordResetToken validForMins n2 dbB emailB tokenB newPw =
      (dbB2, .success eB)) :
    redeemMagicAuthToken validForMins m1 dbA2 emailA tokenA =
      (dbA2, .failure "TOKEN_REDEEMED"
        "Auth tokens are single use and the auth token provided has already been redeemed.") ∧
    redeemPasswordResetToken validForMins m2 dbB2 emailB tokenB newPw2 =
      (dbB2, .failure "TOKEN_REDEEMED"
        "Auth tokens are single use and the auth token provided has already been redeemed.") := by
  constructor
  · unfold redeemMagicAuthToken at hA ⊢
    cases hfind : dbA.find? (fun u => u.email == emailA) with
    | none =>
      rw [hfind] at hA
      exact absurd hA (by simp)
    | some u =>
      simp only [hfind] at hA
      have hp := List.find?_some hfind
      simp only [beq_iff_eq] at hp
      by_cases htok : u.magicToken = some tokenA
      case neg => simp [htok] at hA
      case pos =>
        cases hred : u.magicRedeemed with
        | true => simp [htok, hred] at hA
        | false =>
          by_cases hexp : validForMins < n1 - u.magicIssuedAt
          case pos => simp [htok, hred, hexp] at hA
          case neg =>
            simp only [htok, hred, hexp, beq_self_eq_true, if_true, if_false,
              Bool.false_eq_true, Prod.mk.injEq] at hA
            obtain ⟨hdb, -⟩ := hA
            subst hdb
            rw [find?_email_map dbA emailA setMagicRedeemed (fun _ => rfl),
              hfind, Option.map_some']
            simp [hp, setMagicRedeemed, htok]
  · unfold redeemPasswordResetToken at hB ⊢
    cases hfind : dbB.find? (fun u => u.email == emailB) with
    | none =>
      rw [hfind] at hB
      exact absurd hB (by simp)
    | some u =>
      simp only [hfind] at hB
      have hp := List.find?_some hfind
      simp only [beq_iff_eq] at hp
      by_cases htok : u.resetToken = some tokenB
      case neg => simp [htok] at hB
      case pos =>
        cases hred : u.resetRedeemed with
        | true => simp [htok, hred] at hB
        | false =>
          by_cases hexp : validForMins < n2 - u.resetIssuedAt
          case pos => simp [htok, hred, hexp] at hB
          case neg =>
            simp only [htok, hred, hexp, beq_self_eq_true, if_true, if_false,
              Bool.false_eq_true, Prod.mk.injEq] at hB
            obtain ⟨hdb, -⟩ := hB
            subst hdb
            rw [find?_email_map dbB emailB (setResetRedeemed newPw)
              (fun _ => rfl), hfind, Option.map_some']
            simp [hp, setResetRedeemed, htok]

/-- A user whose magic-auth and password-reset tokens are issued and not yet
redeemed. -/
def authUserA : AuthUser := ⟨"e", "pw", some "t", 0, false, some "r", 0, false⟩

/-- `authUserA` after a successful magic-auth redemption. -/
def authUserAMagic : AuthUser :=
  ⟨"e", "pw", some "t", 0, true, some "r", 0, false⟩

/-- `authUserA` after a successful password-reset redemption with the new
password `NEW`. -/
def authUserAReset : AuthUser :=
  ⟨"e", "NEW", some "t", 0, false, some "r", 0, true⟩

/-- C7, witness: both redemptions succeed once on a concrete database and the
single-use theorem yields `TOKEN_REDEEMED` with an unchanged database for the
second attempts. -/
theorem C7_auth_tokens_single_use_witness :
    redeemMagicAuthToken 60 5 [authUserA] "e" "t" =
      ([authUserAMagic], .success "e") ∧
    redeemPasswordResetToken 60 5 [authUserA] "e" "r" "NEW" =
      ([authUserAReset], .success "e") ∧
    redeemMagicAuthToken 60 99 [authUserAMagic] "e" "t" =
      ([authUserAMagic], .failure "TOKEN_REDEEMED"
        "Auth tokens are single use and the auth token provided has already been redeemed.") ∧
    redeemPasswordResetToken 60 99 [authUserAReset] "e" "r" "NEW2" =
      ([authUserAReset], .failure "TOKEN_REDEEMED"
        "Auth tokens are single use and the auth token provided has already been redeemed.") := by
  have h := C7_auth_tokens_single_use 60 5 5 99 99 [authUserA] [authUserA]
    [authUserAMagic] [authUserAReset] "e" "e" "t" "r" "NEW" "NEW2" "e" "e"
    (by decide) (by decide)
  exact ⟨by decide, by decide, h.1, h.2⟩
